import Mathlib

/-!
# Verification of the epub-dude streaming extractors and fetch policy

Shallow embedding of `src/main.rs`: the two `TokenSink` implementations
(`ChapterSink`, `LinksSink`) become pure state-transition functions over an
explicit state record, driven by a list of HTML tokens; `fetch_with_backoff`
becomes a recursive function over an abstract transport (attempt number ↦
response) that additionally records the backoff sleeps it performs and the
number of GET requests it issues.
-/

/-- An HTML tag attribute: `name="value"`.  Mirrors html5ever's
`Attribute` restricted to the local name, which is all the code reads. -/
structure Attr where
  name : String
  value : String
deriving DecidableEq, Repr

/-- Start tag or end tag, as in html5ever's `TagKind`. -/
inductive TagKind where
  | startTag
  | endTag
deriving DecidableEq, Repr

/-- An HTML tag token with its kind, name, and attribute list. -/
structure Tag where
  kind : TagKind
  name : String
  attrs : List Attr
deriving DecidableEq, Repr

/-- The html5ever tokens the sinks inspect.  Every variant other than
`TagToken` and `CharacterTokens` is handled by the sinks' `_ => {}` arm,
so they collapse to a single `other` constructor here. -/
inductive Token where
  | tagToken (tag : Tag)
  | characterTokens (text : String)
  | other
deriving DecidableEq, Repr

/-- Replace every occurrence of the character `target` in a character list
by the character list `repl`.  `replaceChar c r` models Rust
`str::replace` with a single-character pattern; `replaceChar c []` models
replacement by the empty string, i.e. deletion of the character. -/
def replaceChar (target : Char) (repl : List Char) (cs : List Char) : List Char :=
  cs.flatMap (fun c => if c = target then repl else [c])

/-- The body-text transform of `ChapterSink::process_token`:
`text.replace('\n', "<br />").replace("\u{2003}", "")` — first every
newline becomes `<br />`, then every em-space (U+2003) is removed. -/
def transformBody (s : String) : String :=
  String.mk (replaceChar (Char.ofNat 0x2003) [] (replaceChar '\n' "<br />".toList s.data))

/-- State of the chapter-page extractor: the fields of Rust's
`ChapterSink` (`Cell<bool>` flags and `RefCell<String>` accumulators
become plain fields). -/
structure ChapterSink where
  found_name : Bool
  found_content : Bool
  title : String
  text : String
deriving DecidableEq, Repr

/-- Rust `#[derive(Default)]` for `ChapterSink`: flags false, strings empty. -/
def ChapterSink.init : ChapterSink :=
  { found_name := false, found_content := false, title := "", text := "" }

/-- Rust `ChapterSink::process_token`, one token. -/
def ChapterSink.processToken (s : ChapterSink) : Token → ChapterSink
  | Token.tagToken tag =>
    match tag.kind with
    | TagKind.startTag =>
      tag.attrs.foldl (fun st attr =>
        match attr.name, attr.value with
        | "class", "name" => { st with found_name := true }
        | "class", "content" => { st with found_content := true }
        | _, _ => st) s
    | TagKind.endTag =>
      match s.found_name, s.found_content with
      | true, false => { s with found_name := false }
      | false, true => { s with found_content := false }
      | _, _ => s
  | Token.characterTokens text =>
    match s.found_name, s.found_content with
    | true, false => { s with title := s.title ++ text }
    | false, true =>
      if text.isEmpty then s
      else { s with text := s.text ++ transformBody text }
    | _, _ => s
  | Token.other => s

/-- Run `ChapterSink` over a whole token sequence. -/
def ChapterSink.processTokens (s : ChapterSink) (ts : List Token) : ChapterSink :=
  ts.foldl ChapterSink.processToken s

/-- State of the listing-page extractor: the fields of Rust's `LinksSink`. -/
structure LinksSink where
  links : List String
  author : String
  title : String
  found_author_tag : Bool
  found_author : Bool
  found_title : Bool
  found_links : Bool
deriving DecidableEq, Repr

/-- Rust `#[derive(Default)]` for `LinksSink`. -/
def LinksSink.init : LinksSink :=
  { links := [], author := "", title := "", found_author_tag := false,
    found_author := false, found_title := false, found_links := false }

/-- Rust `LinksSink::process_token`, one token. -/
def LinksSink.processToken (s : LinksSink) : Token → LinksSink
  | Token.tagToken tag =>
    match tag.kind with
    | TagKind.startTag =>
      match tag.name with
      | "span" =>
        tag.attrs.foldl (fun st attr =>
          match attr.name, attr.value with
          | "class", "author" => { st with found_author_tag := true }
          | "class", "title" => { st with found_title := true }
          | _, _ => st) s
      | "a" =>
        match s.found_author_tag, s.found_links with
        | true, false => { s with found_author := true }
        | false, true =>
          tag.attrs.foldl (fun st attr =>
            if attr.name = "href" then
              { st with links := st.links ++ ["https:" ++ attr.value] }
            else st) s
        | _, _ => s
      | "ul" =>
        tag.attrs.foldl (fun st attr =>
          if attr.name = "id" ∧ attr.value = "chapter-list" then
            { st with found_links := true }
          else st) s
      | _ => s
    | TagKind.endTag =>
      match s.found_author, s.found_title, s.found_links with
      | true, false, false => { s with found_author := false, found_author_tag := false }
      | false, true, false => { s with found_title := false }
      | false, false, true =>
        if tag.name = "ul" then { s with found_links := false } else s
      | _, _, _ => s
  | Token.characterTokens text =>
    match s.found_author, s.found_title with
    | true, false => { s with author := text }
    | false, true => { s with title := text }
    | _, _ => s
  | Token.other => s

/-- Run `LinksSink` over a whole token sequence. -/
def LinksSink.processTokens (s : LinksSink) (ts : List Token) : LinksSink :=
  ts.foldl LinksSink.processToken s

/-- A transport response, as `fetch_with_backoff` distinguishes them:
a successful response carrying a body, a 429 status, or any other error. -/
inductive Resp where
  | ok (body : String)
  | rate429
  | fail (msg : String)
deriving DecidableEq, Repr

/-- Outcome of `fetch_with_backoff`: the successful body, a propagated
transport error, or the terminal `max retries exceeded` error. -/
inductive FetchResult where
  | body (b : String)
  | transportErr (msg : String)
  | retriesExhausted
deriving DecidableEq, Repr

/-- The loop of `fetch_with_backoff`.  `transport` maps the index of a GET
request (0-based) to its response; `retries` and `delay` are the Rust local
variables; `attempt` counts requests issued so far; `sleeps` accumulates the
backoff delays slept on 429 responses, in order.  Returns the result, the
backoff-sleep list, and the total number of GET requests issued.  (The fixed
900 ms courtesy sleep on success is not a backoff delay and is not recorded.) -/
def fetchAux (transport : Nat → Resp) :
    Nat → Nat → Nat → List Nat → FetchResult × List Nat × Nat
  | 0, _, attempt, sleeps => (FetchResult.retriesExhausted, sleeps, attempt)
  | r + 1, delay, attempt, sleeps =>
    match transport attempt with
    | Resp.ok b => (FetchResult.body b, sleeps, attempt + 1)
    | Resp.rate429 => fetchAux transport r (delay * 2) (attempt + 1) (sleeps ++ [delay])
    | Resp.fail m => (FetchResult.transportErr m, sleeps, attempt + 1)

/-- Rust `fetch_with_backoff`: retry budget 3, initial backoff delay 3000 ms. -/
def fetchWithBackoff (transport : Nat → Resp) : FetchResult × List Nat × Nat :=
  fetchAux transport 3 3000 0 []

/-- The transport of the C1 scenario: three consecutive 429 responses,
then a success on every later request. -/
def threeRateLimitsThenOk : Nat → Resp :=
  fun n => if n < 3 then Resp.rate429 else Resp.ok "body"

/-- C1 counterexample: with three consecutive 429 responses followed by a
success, `fetch_with_backoff` does NOT return the successful body — the
retry budget (3) is exhausted by the three 429 responses, only 3 GET
requests are ever issued (the success is never requested), and the result
is the terminal retries-exhausted error after backoff sleeps of 3000, 6000
and 12000 ms. -/
theorem fetch_three_429_then_ok_exhausts :
    fetchWithBackoff threeRateLimitsThenOk
      = (FetchResult.retriesExhausted, [3000, 6000, 12000], 3) := by
  rfl

/-- C1 (amended): if the transport returns exactly two consecutive 429
responses and then a success, `fetch_with_backoff` performs exactly 2
delayed retry attempts whose backoff delays strictly double starting from
the initial 3000 ms value (3000 then 6000 ms), issues 3 GET requests in
total, and returns the successful response body (no error). -/
theorem fetch_two_429_then_ok (t : Nat → Resp) (b : String)
    (h0 : t 0 = Resp.rate429) (h1 : t 1 = Resp.rate429) (h2 : t 2 = Resp.ok b) :
    fetchWithBackoff t = (FetchResult.body b, [3000, 6000], 3) := by
  simp [fetchWithBackoff, fetchAux, h0, h1, h2]

/-- Witness for `fetch_two_429_then_ok` at a concrete transport. -/
theorem fetch_two_429_then_ok_witness :
    fetchWithBackoff (fun n => if n < 2 then Resp.rate429 else Resp.ok "page")
      = (FetchResult.body "page", [3000, 6000], 3) :=
  fetch_two_429_then_ok (fun n => if n < 2 then Resp.rate429 else Resp.ok "page")
    "page" (by decide) (by decide) (by decide)

/-- C2: if every GET attempt returns a 429 status, `fetch_with_backoff`
issues exactly 3 GET requests (no more than the retry budget of 3 allows)
and returns the terminal retries-exhausted error rather than a body. -/
theorem fetch_all_429_exhausts (t : Nat → Resp) (h : ∀ n, t n = Resp.rate429) :
    fetchWithBackoff t = (FetchResult.retriesExhausted, [3000, 6000, 12000], 3) := by
  simp [fetchWithBackoff, fetchAux, h 0, h 1, h 2]

/-- Witness for `fetch_all_429_exhausts` at the constant-429 transport. -/
theorem fetch_all_429_exhausts_witness :
    fetchWithBackoff (fun _ => Resp.rate429)
      = (FetchResult.retriesExhausted, [3000, 6000, 12000], 3) :=
  fetch_all_429_exhausts (fun _ => Resp.rate429) (fun _ => rfl)

/-- Listing page fragment: one author span containing two consecutive text
runs "A" then "B" inside one anchor. -/
def authorABTokens : List Token :=
  [Token.tagToken ⟨TagKind.startTag, "span", [⟨"class", "author"⟩]⟩,
   Token.tagToken ⟨TagKind.startTag, "a", [⟨"href", "/author"⟩]⟩,
   Token.characterTokens "A",
   Token.characterTokens "B"]

/-- C4: a text token processed by the listing extractor while
`found_author` is true and `found_title` is false overwrites `author` with
the token content (last-write-wins, not concatenation); symmetrically a
text token while `found_title` is true and `found_author` is false
overwrites `title`; hence two consecutive text runs "A" then "B" inside
one author anchor leave `author = "B"`, not `"AB"`. -/
theorem listing_text_overwrites :
    (∀ (s : LinksSink) (t : String), s.found_author = true → s.found_title = false →
        s.processToken (Token.characterTokens t) = { s with author := t })
    ∧ (∀ (s : LinksSink) (t : String), s.found_title = true → s.found_author = false →
        s.processToken (Token.characterTokens t) = { s with title := t })
    ∧ (LinksSink.init.processTokens authorABTokens).author = "B" := by
  refine ⟨?_, ?_, ?_⟩
  · intro s t h1 h2
    simp [LinksSink.processToken, h1, h2]
  · intro s t h1 h2
    simp [LinksSink.processToken, h1, h2]
  · rfl

/-- Witness for `listing_text_overwrites` at a concrete state and token. -/
theorem listing_text_overwrites_witness :
    LinksSink.processToken
        { links := [], author := "old", title := "", found_author_tag := true,
          found_author := true, found_title := false, found_links := false }
        (Token.characterTokens "new")
      = { links := [], author := "new", title := "", found_author_tag := true,
          found_author := true, found_title := false, found_links := false } :=
  listing_text_overwrites.1
    { links := [], author := "old", title := "", found_author_tag := true,
      found_author := true, found_title := false, found_links := false }
    "new" rfl rfl

/-- Chapter page fragment: a title region holding two text runs. -/
def chapterTitleTokens : List Token :=
  [Token.tagToken ⟨TagKind.startTag, "h1", [⟨"class", "name"⟩]⟩,
   Token.characterTokens "Ch.",
   Token.characterTokens " 1"]

/-- C5: a text token processed by the chapter extractor while
`found_name` is true and `found_content` is false is appended
(concatenated verbatim) to the title accumulator, not overwritten; hence
two text runs "Ch." and " 1" in the title region yield title "Ch. 1". -/
theorem chapter_title_concatenates :
    (∀ (s : ChapterSink) (t : String), s.found_name = true → s.found_content = false →
        s.processToken (Token.characterTokens t) = { s with title := s.title ++ t })
    ∧ (ChapterSink.init.processTokens chapterTitleTokens).title = "Ch. 1" := by
  constructor
  · intro s t h1 h2
    simp [ChapterSink.processToken, h1, h2]
  · rfl

/-- Witness for `chapter_title_concatenates` at a concrete state and token. -/
theorem chapter_title_concatenates_witness :
    ChapterSink.processToken
        { found_name := true, found_content := false, title := "Ch.", text := "" }
        (Token.characterTokens " 1")
      = { found_name := true, found_content := false, title := "Ch. 1", text := "" } :=
  chapter_title_concatenates.1
    { found_name := true, found_content := false, title := "Ch.", text := "" }
    " 1" rfl rfl

/-- C6: for a text token processed by the chapter extractor while the
body region is active (`found_content`) and the title region is not: an
empty token leaves the state unchanged; a non-empty token is appended to
the body accumulator after replacing every newline with `<br />` and
removing every em-space (U+2003); and the two transforms commute, so the
result does not depend on the order in which they are applied. -/
theorem chapter_body_transform :
    (∀ s : ChapterSink, s.found_content = true → s.found_name = false →
        s.processToken (Token.characterTokens "") = s)
    ∧ (∀ (s : ChapterSink) (t : String), s.found_content = true → s.found_name = false →
        t.isEmpty = false →
        s.processToken (Token.characterTokens t) = { s with text := s.text ++ transformBody t })
    ∧ (∀ cs : List Char,
        replaceChar (Char.ofNat 0x2003) [] (replaceChar '\n' "<br />".toList cs)
          = replaceChar '\n' "<br />".toList (replaceChar (Char.ofNat 0x2003) [] cs)) := by
  refine ⟨?_, ?_, ?_⟩
  · intro s h1 h2
    have he : ("" : String).isEmpty = true := rfl
    simp [ChapterSink.processToken, h1, h2, he]
  · intro s t h1 h2 ht
    simp [ChapterSink.processToken, h1, h2, ht]
  · have hbr : "<br />".toList = ['<', 'b', 'r', ' ', '/', '>'] := rfl
    intro cs
    induction cs with
    | nil => rfl
    | cons c cs ih =>
      simp only [replaceChar, hbr, List.flatMap_cons, List.flatMap_append] at ih ⊢
      rw [ih]
      congr 1
      by_cases h1 : c = '\n'
      · subst h1
        rw [if_pos rfl, if_neg (by decide)]
        decide
      · by_cases h2 : c = Char.ofNat 0x2003
        · subst h2
          rw [if_neg (by decide), if_pos rfl]
          decide
        · rw [if_neg h1, if_neg h2]
          simp only [List.flatMap_cons, List.flatMap_nil, List.append_nil]
          rw [if_neg h2, if_neg h1]

/-- Witness for `chapter_body_transform`: a body-region text run holding a
newline and an em-space is appended with the newline turned into
`<br />` and the em-space removed. -/
theorem chapter_body_transform_witness :
    ChapterSink.processToken
        { found_name := false, found_content := true, title := "", text := "x" }
        (Token.characterTokens (String.mk ['a', '\n', Char.ofNat 0x2003, 'b']))
      = { found_name := false, found_content := true, title := "",
          text := "xa<br />b" } :=
  chapter_body_transform.2.1
    { found_name := false, found_content := true, title := "", text := "x" }
    (String.mk ['a', '\n', Char.ofNat 0x2003, 'b']) rfl rfl rfl

/-- The links contributed by one `a` start tag in the link-list region:
every `href` attribute's value prefixed with `https:`, in attribute order. -/
def hrefLinks (attrs : List Attr) : List String :=
  attrs.filterMap (fun a => if a.name = "href" then some ("https:" ++ a.value) else none)

/-- The `href` fold of the `a` branch of `LinksSink::process_token`
appends exactly `hrefLinks attrs` to the state's link list. -/
theorem hrefFold_appends (attrs : List Attr) :
    ∀ s : LinksSink, attrs.foldl (fun st attr =>
        if attr.name = "href" then { st with links := st.links ++ ["https:" ++ attr.value] }
        else st) s
      = { s with links := s.links ++ hrefLinks attrs } := by
  induction attrs with
  | nil => intro s; simp [hrefLinks]
  | cons a as ih =>
    intro s
    rw [List.foldl_cons]
    by_cases h : a.name = "href"
    · rw [if_pos h, ih]
      simp [hrefLinks, h, List.filterMap_cons]
    · rw [if_neg h, ih]
      simp [hrefLinks, h, List.filterMap_cons]

/-- A link-list region with three anchors with hrefs `/a`, `/b`, `/c`. -/
def threeAnchorTokens : List Token :=
  [Token.tagToken ⟨TagKind.startTag, "ul", [⟨"id", "chapter-list"⟩]⟩,
   Token.tagToken ⟨TagKind.startTag, "a", [⟨"href", "/a"⟩]⟩,
   Token.characterTokens "one",
   Token.tagToken ⟨TagKind.startTag, "a", [⟨"href", "/b"⟩]⟩,
   Token.tagToken ⟨TagKind.startTag, "a", [⟨"href", "/c"⟩]⟩,
   Token.tagToken ⟨TagKind.endTag, "ul", []⟩]

/-- C3: while `found_links` is true and `found_author_tag` is false, an
`a` start tag appends each of its `href` values prefixed with `https:` to
`links` in encounter order (duplicates preserved); while only the
link-list flag of the three exit flags is set, an end tag whose name is
not `ul` leaves the state unchanged, and a `ul` end tag clears exactly
`found_links`; three anchors `/a`, `/b`, `/c` inside a
`ul id="chapter-list"` region yield links
`["https:/a", "https:/b", "https:/c"]`. -/
theorem listing_link_region :
    (∀ (s : LinksSink) (attrs : List Attr),
        s.found_links = true → s.found_author_tag = false →
        s.processToken (Token.tagToken ⟨TagKind.startTag, "a", attrs⟩)
          = { s with links := s.links ++ hrefLinks attrs })
    ∧ (∀ (s : LinksSink) (name : String) (attrs : List Attr),
        s.found_links = true → s.found_author = false → s.found_title = false →
        name ≠ "ul" →
        s.processToken (Token.tagToken ⟨TagKind.endTag, name, attrs⟩) = s)
    ∧ (∀ (s : LinksSink) (attrs : List Attr),
        s.found_links = true → s.found_author = false → s.found_title = false →
        s.processToken (Token.tagToken ⟨TagKind.endTag, "ul", attrs⟩)
          = { s with found_links := false })
    ∧ (LinksSink.init.processTokens threeAnchorTokens).links
        = ["https:/a", "https:/b", "https:/c"] := by
  refine ⟨?_, ?_, ?_, ?_⟩
  · intro s attrs h1 h2
    simp [LinksSink.processToken, h1, h2, hrefFold_appends]
  · intro s name attrs h1 h2 h3 hn
    simp [LinksSink.processToken, h1, h2, h3, hn]
  · intro s attrs h1 h2 h3
    simp [LinksSink.processToken, h1, h2, h3]
  · rfl

/-- Witness for `listing_link_region` at a concrete state and anchor. -/
theorem listing_link_region_witness :
    LinksSink.processToken
        { links := ["https:/a"], author := "", title := "", found_author_tag := false,
          found_author := false, found_title := false, found_links := true }
        (Token.tagToken ⟨TagKind.startTag, "a", [⟨"href", "/a"⟩]⟩)
      = { links := ["https:/a", "https:/a"], author := "", title := "",
          found_author_tag := false, found_author := false, found_title := false,
          found_links := true } :=
  listing_link_region.1
    { links := ["https:/a"], author := "", title := "", found_author_tag := false,
      found_author := false, found_title := false, found_links := true }
    [⟨"href", "/a"⟩] rfl rfl

/-- A token carries none of the listing extractor's markers: it is not a
`span` start tag with `class="author"` or `class="title"`, and not a `ul`
start tag with `id="chapter-list"`. -/
def noListingMarkers (tok : Token) : Prop :=
  match tok with
  | Token.tagToken t =>
    t.kind = TagKind.startTag →
      ((t.name = "span" →
          ∀ a ∈ t.attrs, a.name = "class" → a.value ≠ "author" ∧ a.value ≠ "title")
       ∧ (t.name = "ul" →
          ∀ a ∈ t.attrs, a.name = "id" → a.value ≠ "chapter-list"))
  | _ => True

/-- The `span` attribute fold of `LinksSink::process_token` is the
identity when no attribute is `class="author"` or `class="title"`. -/
theorem spanFold_id (attrs : List Attr)
    (h : ∀ a ∈ attrs, a.name = "class" → a.value ≠ "author" ∧ a.value ≠ "title") :
    ∀ s : LinksSink, attrs.foldl (fun st attr =>
        match attr.name, attr.value with
        | "class", "author" => { st with found_author_tag := true }
        | "class", "title" => { st with found_title := true }
        | _, _ => st) s = s := by
  induction attrs with
  | nil => intro s; rfl
  | cons a as ih =>
    intro s
    have hs : (match a.name, a.value with
        | "class", "author" => { s with found_author_tag := true }
        | "class", "title" => { s with found_title := true }
        | _, _ => s) = s := by
      split
      · rename_i h1 h2
        exact absurd h2 ((h a (by simp) h1).1)
      · rename_i h1 h2
        exact absurd h2 ((h a (by simp) h1).2)
      · rfl
    rw [List.foldl_cons, hs]
    exact ih (fun x hx => h x (List.mem_cons_of_mem a hx)) s

/-- The `ul` attribute fold of `LinksSink::process_token` is the identity
when no attribute is `id="chapter-list"`. -/
theorem ulFold_id (attrs : List Attr)
    (h : ∀ a ∈ attrs, a.name = "id" → a.value ≠ "chapter-list") :
    ∀ s : LinksSink, attrs.foldl (fun st attr =>
        if attr.name = "id" ∧ attr.value = "chapter-list" then
          { st with found_links := true }
        else st) s = s := by
  induction attrs with
  | nil => intro s; rfl
  | cons a as ih =>
    intro s
    rw [List.foldl_cons, if_neg (fun hc => (h a (by simp) hc.1) hc.2)]
    exact ih (fun x hx => h x (List.mem_cons_of_mem a hx)) s

/-- A marker-free token leaves the initial listing state unchanged. -/
theorem noMarkers_step (tok : Token) (h : noListingMarkers tok) :
    LinksSink.processToken LinksSink.init tok = LinksSink.init := by
  cases tok with
  | other => rfl
  | characterTokens t => rfl
  | tagToken tag =>
    obtain ⟨kind, name, attrs⟩ := tag
    cases kind with
    | endTag => rfl
    | startTag =>
      simp only [noListingMarkers, forall_const] at h
      unfold LinksSink.processToken
      dsimp only
      split
      · exact spanFold_id attrs (h.1 rfl) LinksSink.init
      · rfl
      · exact ulFold_id attrs (h.2 rfl) LinksSink.init
      · rfl

/-- C7: for every token sequence containing no `span` tag with
`class="author"`, no `span` tag with `class="title"`, and no `ul` tag
with `id="chapter-list"`, the listing extractor yields an empty author,
an empty title, and an empty link list. -/
theorem listing_no_markers_empty (ts : List Token)
    (h : ∀ tok ∈ ts, noListingMarkers tok) :
    (LinksSink.init.processTokens ts).author = ""
    ∧ (LinksSink.init.processTokens ts).title = ""
    ∧ (LinksSink.init.processTokens ts).links = [] := by
  have key : LinksSink.init.processTokens ts = LinksSink.init := by
    induction ts with
    | nil => rfl
    | cons t ts ih =>
      unfold LinksSink.processTokens
      rw [List.foldl_cons, noMarkers_step t (h t (by simp))]
      exact ih (fun x hx => h x (List.mem_cons_of_mem t hx))
  rw [key]
  exact ⟨rfl, rfl, rfl⟩

/-- Witness for `listing_no_markers_empty` on a concrete marker-free
sequence (a `div` may even carry `class="author"`: only `span` counts). -/
theorem listing_no_markers_empty_witness :
    (LinksSink.init.processTokens
        [Token.tagToken ⟨TagKind.startTag, "div", [⟨"class", "author"⟩]⟩,
         Token.characterTokens "x",
         Token.tagToken ⟨TagKind.startTag, "span", [⟨"class", "big"⟩]⟩,
         Token.tagToken ⟨TagKind.endTag, "div", []⟩,
         Token.other]).author = ""
    ∧ (LinksSink.init.processTokens
        [Token.tagToken ⟨TagKind.startTag, "div", [⟨"class", "author"⟩]⟩,
         Token.characterTokens "x",
         Token.tagToken ⟨TagKind.startTag, "span", [⟨"class", "big"⟩]⟩,
         Token.tagToken ⟨TagKind.endTag, "div", []⟩,
         Token.other]).title = ""
    ∧ (LinksSink.init.processTokens
        [Token.tagToken ⟨TagKind.startTag, "div", [⟨"class", "author"⟩]⟩,
         Token.characterTokens "x",
         Token.tagToken ⟨TagKind.startTag, "span", [⟨"class", "big"⟩]⟩,
         Token.tagToken ⟨TagKind.endTag, "div", []⟩,
         Token.other]).links = [] :=
  listing_no_markers_empty
    [Token.tagToken ⟨TagKind.startTag, "div", [⟨"class", "author"⟩]⟩,
     Token.characterTokens "x",
     Token.tagToken ⟨TagKind.startTag, "span", [⟨"class", "big"⟩]⟩,
     Token.tagToken ⟨TagKind.endTag, "div", []⟩,
     Token.other]
    (by
      intro tok htok
      simp only [List.mem_cons, List.not_mem_nil, or_false] at htok
      rcases htok with rfl | rfl | rfl | rfl | rfl <;> simp [noListingMarkers])

/-- A listing state in which the author-tag marker is set and the
link-list region is active at the same time. -/
def ambiguousAnchorState : LinksSink :=
  { links := [], author := "", title := "", found_author_tag := true,
    found_author := false, found_title := false, found_links := true }

/-- C8 counterexample: when an `a` start tag arrives while
`found_author_tag` and `found_links` are both true, the author branch
does NOT fire — the Rust tuple match `(true, false) | (false, true)`
falls through to the `(_, _)` wildcard, so `found_author` stays false
(the claim asserts it is set); the href is also not appended. -/
theorem ambiguous_anchor_counterexample :
    ambiguousAnchorState.found_author_tag = true
    ∧ ambiguousAnchorState.found_links = true
    ∧ (ambiguousAnchorState.processToken
        (Token.tagToken ⟨TagKind.startTag, "a", [⟨"href", "/x"⟩]⟩)).found_author = false
    ∧ (ambiguousAnchorState.processToken
        (Token.tagToken ⟨TagKind.startTag, "a", [⟨"href", "/x"⟩]⟩)).links = [] :=
  ⟨rfl, rfl, rfl, rfl⟩

/-- C8 (amended): when an `a` start tag arrives while the author-tag
marker is set AND the link-list flag is already true, neither branch
fires — the whole state is unchanged: `found_author` is not set and the
anchor's href is not appended to `links`, so the anchor is treated
neither as an author link nor as a chapter link. -/
theorem ambiguous_anchor_ignored (s : LinksSink) (attrs : List Attr)
    (h1 : s.found_author_tag = true) (h2 : s.found_links = true) :
    s.processToken (Token.tagToken ⟨TagKind.startTag, "a", attrs⟩) = s := by
  simp [LinksSink.processToken, h1, h2]

/-- Witness for `ambiguous_anchor_ignored` at the concrete ambiguous state. -/
theorem ambiguous_anchor_ignored_witness :
    LinksSink.processToken ambiguousAnchorState
        (Token.tagToken ⟨TagKind.startTag, "a", [⟨"href", "/x"⟩]⟩)
      = ambiguousAnchorState :=
  ambiguous_anchor_ignored ambiguousAnchorState [⟨"href", "/x"⟩] rfl rfl

/-- C9: a text token is attributed to at most one accumulator.  In the
listing extractor a text token never changes `links`, and never changes
`author` and `title` both; in the chapter extractor it never changes
`title` and `text` both; and whenever the two region flags of an
extractor are equal (both false or both true — no single region
selected), the text token changes nothing at all. -/
theorem text_single_region :
    (∀ (s : LinksSink) (t : String),
        (s.processToken (Token.characterTokens t)).links = s.links
        ∧ ((s.processToken (Token.characterTokens t)).author = s.author
           ∨ (s.processToken (Token.characterTokens t)).title = s.title)
        ∧ (s.found_author = s.found_title → s.processToken (Token.characterTokens t) = s))
    ∧ (∀ (s : ChapterSink) (t : String),
        ((s.processToken (Token.characterTokens t)).title = s.title
         ∨ (s.processToken (Token.characterTokens t)).text = s.text)
        ∧ (s.found_name = s.found_content → s.processToken (Token.characterTokens t) = s)) := by
  constructor
  · intro s t
    cases hA : s.found_author <;> cases hT : s.found_title <;>
      simp [LinksSink.processToken, hA, hT]
  · intro s t
    cases hN : s.found_name <;> cases hC : s.found_content <;>
      simp [ChapterSink.processToken, hN, hC]
    split <;> simp

/-- Witness for `text_single_region`: at the initial states (both flags
false, equal) a text token changes nothing. -/
theorem text_single_region_witness :
    (LinksSink.processToken LinksSink.init (Token.characterTokens "x")).links
        = LinksSink.init.links
    ∧ LinksSink.processToken LinksSink.init (Token.characterTokens "x") = LinksSink.init
    ∧ ChapterSink.processToken ChapterSink.init (Token.characterTokens "x")
        = ChapterSink.init :=
  ⟨(text_single_region.1 LinksSink.init "x").1,
   (text_single_region.1 LinksSink.init "x").2.2 rfl,
   (text_single_region.2 ChapterSink.init "x").2 rfl⟩

/-- The chapter start-tag attribute fold cannot change a state whose two
flags are already both true. -/
theorem chapterStartFold_both (attrs : List Attr) :
    ∀ s : ChapterSink, s.found_name = true → s.found_content = true →
      attrs.foldl (fun st attr =>
        match attr.name, attr.value with
        | "class", "name" => { st with found_name := true }
        | "class", "content" => { st with found_content := true }
        | _, _ => st) s = s := by
  induction attrs with
  | nil => intro s _ _; rfl
  | cons a as ih =>
    intro s h1 h2
    have hs : (match a.name, a.value with
        | "class", "name" => { s with found_name := true }
        | "class", "content" => { s with found_content := true }
        | _, _ => s) = s := by
      split
      · rw [← h1]
      · rw [← h2]
      · rfl
    rw [List.foldl_cons, hs]
    exact ih s h1 h2

/-- A single token cannot change a chapter state whose two flags are
both true. -/
theorem chapter_absorbed_token (s : ChapterSink) (tok : Token)
    (h1 : s.found_name = true) (h2 : s.found_content = true) :
    s.processToken tok = s := by
  cases tok with
  | other => rfl
  | characterTokens t => simp [ChapterSink.processToken, h1, h2]
  | tagToken tag =>
    obtain ⟨kind, name, attrs⟩ := tag
    cases kind with
    | startTag => exact chapterStartFold_both attrs s h1 h2
    | endTag => simp [ChapterSink.processToken, h1, h2]

/-- A token prefix that drives the chapter extractor into the state where
both `found_name` and `found_content` are true: a start tag inside the
content region carries `class="name"`. -/
def reachBothTokens : List Token :=
  [Token.tagToken ⟨TagKind.startTag, "div", [⟨"class", "content"⟩]⟩,
   Token.tagToken ⟨TagKind.startTag, "span", [⟨"class", "name"⟩]⟩]

/-- C10: the chapter-extractor state with `found_name` and
`found_content` both true is reachable (e.g. via `reachBothTokens`) and
absorbing: every subsequent token sequence leaves the whole state — in
particular both flags and the `title` and `text` accumulators —
unchanged; no end tag ever clears either flag and every text token is
ignored. -/
theorem chapter_both_flags_absorbing :
    (∀ (s : ChapterSink) (ts : List Token), s.found_name = true → s.found_content = true →
        s.processTokens ts = s)
    ∧ (ChapterSink.init.processTokens reachBothTokens).found_name = true
    ∧ (ChapterSink.init.processTokens reachBothTokens).found_content = true := by
  refine ⟨?_, rfl, rfl⟩
  intro s ts h1 h2
  induction ts with
  | nil => rfl
  | cons t ts ih =>
    unfold ChapterSink.processTokens
    rw [List.foldl_cons, chapter_absorbed_token s t h1 h2]
    exact ih

/-- Witness for `chapter_both_flags_absorbing` at a concrete absorbed
state and continuation. -/
theorem chapter_both_flags_absorbing_witness :
    ChapterSink.processTokens
        { found_name := true, found_content := true, title := "t", text := "b" }
        [Token.characterTokens "x", Token.tagToken ⟨TagKind.endTag, "div", []⟩,
         Token.tagToken ⟨TagKind.endTag, "span", []⟩]
      = { found_name := true, found_content := true, title := "t", text := "b" } :=
  chapter_both_flags_absorbing.1
    { found_name := true, found_content := true, title := "t", text := "b" }
    [Token.characterTokens "x", Token.tagToken ⟨TagKind.endTag, "div", []⟩,
     Token.tagToken ⟨TagKind.endTag, "span", []⟩] rfl rfl
